import Mathlib

/-!
Verification of the Phase-3/Phase-4 analytics core of the Gelar-Rasa retail
pipeline: the new-launch identification (`src/phase4/new_launch.py`), the
source-of-volume analyzer (`src/phase4/sov_analysis.py`), the portfolio-impact
analyzer (`src/phase4/portfolio_impact.py`) and the time-series forecaster
(`src/phase3/time_series_forecast.py`).

Modelling conventions:
* Python floats (revenue, units, percentages) are modelled as exact rationals
  `ℚ`; the arithmetic performed by the code involves only +, −, ×, ÷, abs and
  comparisons, which the rational idealization mirrors faithfully.
* Timestamps are modelled by `Date` below: an absolute month index plus a day
  of month.  `pd.DateOffset(months=k)` keeps the day of month and shifts the
  month, which is exactly `Date.addMonths` (for days 1..28, where no month-end
  clamping occurs); `pd.Series.dt.to_period('M')` is projection on `.month`.
* Tabular data (`pd.DataFrame`) is modelled by lists of typed records, one
  structure per table schema; boolean-mask filtering is `List.filter`, and
  `groupby(key)['revenue'].sum()` is realized by `productIds` (group keys) plus
  `groupRevenue` (per-group sum).  pandas sorts group keys, while `List.dedup`
  keeps first-occurrence order; no property proved here depends on the
  enumeration order of group keys (all uses are sums or memberships).
* Python dicts keyed by product id are association lists; the launch tables
  the pipeline feeds in have unique product ids, so first-match lookup
  (`find?`) agrees with dict lookup.
* `pd.DataFrame(rows).sort_values(col)` raises `KeyError` when `rows` is the
  empty list, because the constructed frame then has no columns at all.  The
  two functions that sort a possibly-empty row list therefore return
  `Except String (List _)`, with `.error` on the empty-input path.
-/

/-- A calendar timestamp: absolute month index (e.g. year*12+month) and day of
month.  Faithful to pandas `Timestamp` for the operations the code performs:
lexicographic comparison and whole-month offsets. -/
structure Date where
  month : Int
  day : Nat
deriving DecidableEq, Repr

/-- Timestamp comparison `a <= b` (Boolean, as used in pandas boolean masks). -/
def dle (a b : Date) : Bool :=
  decide (a.month < b.month) || (decide (a.month = b.month) && decide (a.day ≤ b.day))

/-- Timestamp comparison `a < b`. -/
def dlt (a b : Date) : Bool :=
  decide (a.month < b.month) || (decide (a.month = b.month) && decide (a.day < b.day))

/-- Month offset `date + pd.DateOffset(months=k)`: shift the month, keep the day. -/
def Date.addMonths (d : Date) (k : Int) : Date :=
  { month := d.month + k, day := d.day }

/-- One row of the integrated sales table (`integrated_df`), restricted to the
columns the analyzed components read.  `type` is a Python column name but a
Lean keyword, so the field is called `ptype`; categories, brands and product
ids are coded as naturals (the code only ever compares them for equality). -/
structure Txn where
  transaction_id : Nat
  product_id : Nat
  date : Date
  revenue : ℚ
  units_sold : ℚ
  ptype : Nat
  brand : Nat
deriving DecidableEq, Repr

/-- One row of the product master table (`products_df`). -/
structure Product where
  product_id : Nat
  product_name : String
  brand : Nat
  ptype : Nat
  launch_date : Date
  base_price : ℚ
deriving DecidableEq, Repr

/-- One row of the launch table handed to `SOVAnalyzer` / `PortfolioImpactAnalyzer`
(the `top_launches` frame), restricted to the columns those two components
read: `product_id`, `product_name`, `launch_date`, `type`, `brand`. -/
structure Launch where
  product_id : Nat
  product_name : String
  launch_date : Date
  ptype : Nat
  brand : Nat
deriving DecidableEq, Repr

/-- Column sum `df['revenue'].sum()`. -/
def revenueSum (txns : List Txn) : ℚ :=
  (txns.map (·.revenue)).sum

/-- Column sum `df['units_sold'].sum()`. -/
def unitsSum (txns : List Txn) : ℚ :=
  (txns.map (·.units_sold)).sum

/-- The index of `df.groupby('product_id')`: the distinct product ids occurring
in `txns`.  (pandas returns them sorted; `dedup` keeps first-occurrence order;
only membership and sums over this list are ever used.) -/
def productIds (txns : List Txn) : List Nat :=
  (txns.map (·.product_id)).dedup

/-- Grouped sum `df.groupby('product_id')['revenue'].sum()[pid]`. -/
def groupRevenue (txns : List Txn) (pid : Nat) : ℚ :=
  revenueSum (txns.filter (fun t => t.product_id == pid))

/-- Insert `a` into `l` in front of the first element `x` with `r a x`. -/
def insertOrdered (r : α → α → Bool) (a : α) : List α → List α
  | [] => [a]
  | x :: xs => if r a x then a :: x :: xs else x :: insertOrdered r a xs

/-- Insertion sort by the Boolean relation `r` ("comes no later than"),
modelling `DataFrame.sort_values` (whose exact order on ties is unspecified;
every property proved below is order-insensitive). -/
def insSortBy (r : α → α → Bool) : List α → List α
  | [] => []
  | x :: xs => insertOrdered r x (insSortBy r xs)

/- ----------------------------------------------------------------------
SOVAnalyzer (`src/phase4/sov_analysis.py`)
---------------------------------------------------------------------- -/

/-- Same category, same brand, other product: the `existing_products` mask of
`SOVAnalyzer._analyze_sov_by_launch` (lines 98-102). -/
def sibling_txns (df : List Txn) (launch : Launch) : List Txn :=
  df.filter fun t =>
    t.ptype == launch.ptype && t.brand == launch.brand && t.product_id != launch.product_id

/-- Restriction to the pre-launch window
`[launch_date - window_months, launch_date)`. -/
def pre_window_txns (window_months : Nat) (launch : Launch) (txns : List Txn) : List Txn :=
  let pre_start := launch.launch_date.addMonths (-(window_months : Int))
  let pre_end := launch.launch_date
  txns.filter fun t => dle pre_start t.date && dlt t.date pre_end

/-- Restriction to the post-launch window
`[launch_date, launch_date + window_months)`. -/
def post_window_txns (window_months : Nat) (launch : Launch) (txns : List Txn) : List Txn :=
  let post_start := launch.launch_date
  let post_end := launch.launch_date.addMonths (window_months : Int)
  txns.filter fun t => dle post_start t.date && dlt t.date post_end

/-- One element of the `cannibalized_products` list built at
`sov_analysis.py:127-131`. -/
structure CannEntry where
  product_id : Nat
  revenue_loss : ℚ
  pct_change : ℚ
deriving DecidableEq, Repr

/-- Loop body of `sov_analysis.py:122-131` for one product id of the pre-window
group index: `None` when the id is absent from the post-window index or its
revenue did not drop. -/
def cannEntry (pre_txns post_txns : List Txn) (pid : Nat) : Option CannEntry :=
  if pid ∈ productIds post_txns then
    let revenue_change := groupRevenue post_txns pid - groupRevenue pre_txns pid
    if revenue_change < 0 then
      some { product_id := pid
             revenue_loss := |revenue_change|
             pct_change :=
               if 0 < groupRevenue pre_txns pid then
                 revenue_change / groupRevenue pre_txns pid * 100
               else 0 }
    else none
  else none

/-- The `cannibalized_products` list of one launch: the loop of
`sov_analysis.py:122-131` over the pre-window group index. -/
def cannibalizedProducts (pre_txns post_txns : List Txn) : List CannEntry :=
  (productIds pre_txns).filterMap (cannEntry pre_txns post_txns)

/-- The nested `sov_breakdown` dict of one SOV record. -/
structure SOVBreakdown where
  cannibalization_pct : ℚ
  competitor_pct : ℚ
  expansion_pct : ℚ
deriving DecidableEq, Repr

/-- One per-launch SOV record (`sov_results[new_product_id]`,
`sov_analysis.py:172-187`). -/
structure SOVRecord where
  new_product_id : Nat
  new_product_name : String
  launch_date : Date
  new_product_revenue : ℚ
  new_product_units : ℚ
  cannibalized_revenue : ℚ
  cannibalized_products : List CannEntry
  competitor_loss : ℚ
  market_expansion : ℚ
  sov_breakdown : SOVBreakdown
deriving DecidableEq, Repr

/-- The body of the per-launch loop of `SOVAnalyzer._analyze_sov_by_launch`
(`sov_analysis.py:76-187`).  The Python loop accumulates `cannibalized_revenue`
with `+= abs(revenue_change)` exactly when it appends an entry whose
`revenue_loss` is that same `abs(revenue_change)`, so the accumulator equals
the sum of the `revenue_loss` fields of the appended entries. -/
def analyze_sov_for_launch (window_months : Nat) (df : List Txn) (launch : Launch) :
    SOVRecord :=
  let new_product_sales :=
    post_window_txns window_months launch (df.filter (fun t => t.product_id == launch.product_id))
  let new_product_revenue := revenueSum new_product_sales
  let new_product_units := unitsSum new_product_sales
  let existing_products := sibling_txns df launch
  let pre_launch_existing := pre_window_txns window_months launch existing_products
  let post_launch_existing := post_window_txns window_months launch existing_products
  let cannibalized_products := cannibalizedProducts pre_launch_existing post_launch_existing
  let cannibalized_revenue := (cannibalized_products.map (·.revenue_loss)).sum
  let competitor_products :=
    df.filter fun t => t.ptype == launch.ptype && t.brand != launch.brand
  let pre_competitor := revenueSum (pre_window_txns window_months launch competitor_products)
  let post_competitor := revenueSum (post_window_txns window_months launch competitor_products)
  let competitor_loss :=
    if post_competitor < pre_competitor then pre_competitor - post_competitor else 0
  let category_txns := df.filter fun t => t.ptype == launch.ptype
  let pre_market_total := revenueSum (pre_window_txns window_months launch category_txns)
  let post_market_total := revenueSum (post_window_txns window_months launch category_txns)
  let market_expansion := post_market_total - pre_market_total - new_product_revenue
  let total_sov := new_product_revenue
  { new_product_id := launch.product_id
    new_product_name := launch.product_name
    launch_date := launch.launch_date
    new_product_revenue := new_product_revenue
    new_product_units := new_product_units
    cannibalized_revenue := cannibalized_revenue
    cannibalized_products := cannibalized_products
    competitor_loss := competitor_loss
    market_expansion := market_expansion
    sov_breakdown :=
      { cannibalization_pct := if 0 < total_sov then cannibalized_revenue / total_sov * 100 else 0
        competitor_pct := if 0 < total_sov then competitor_loss / total_sov * 100 else 0
        expansion_pct := if 0 < total_sov then market_expansion / total_sov * 100 else 0 } }

/-- Method `SOVAnalyzer._analyze_sov_by_launch`: the dict `sov_results` keyed by the
new product's id, as an association list in launch order. -/
def analyze_sov_by_launch (window_months : Nat) (df : List Txn) (launches : List Launch) :
    List (Nat × SOVRecord) :=
  launches.map fun launch => (launch.product_id, analyze_sov_for_launch window_months df launch)

/-- The spec's formula for cannibalized revenue, written from the spec's own
words (refinement side, compared with the implementation above): "sum, over
every OTHER product sharing the same category AND brand, of
max(0, pre-window revenue − post-window revenue) for products present in BOTH
windows". -/
def spec_cannibalized_revenue (window_months : Nat) (df : List Txn) (launch : Launch) : ℚ :=
  let siblings := sibling_txns df launch
  let pre := pre_window_txns window_months launch siblings
  let post := post_window_txns window_months launch siblings
  (((productIds siblings).filter fun pid =>
      decide (pid ∈ productIds pre) && decide (pid ∈ productIds post)).map
    fun pid => max 0 (groupRevenue pre pid - groupRevenue post pid)).sum

/-- One row of `sov_breakdown` (`SOVAnalyzer._calculate_sov_breakdown`). -/
structure BreakdownRow where
  product_id : Nat
  product_name : String
  total_revenue : ℚ
  cannibalization_pct : ℚ
  competitor_pct : ℚ
  expansion_pct : ℚ
  cannibalization_revenue : ℚ
  competitor_revenue : ℚ
  expansion_revenue : ℚ
deriving DecidableEq, Repr

/-- Method `SOVAnalyzer._calculate_sov_breakdown` (`sov_analysis.py:191-210`). -/
def calculate_sov_breakdown (sov_by_launch : List (Nat × SOVRecord)) : List BreakdownRow :=
  sov_by_launch.map fun pr =>
    let sov_data := pr.2
    { product_id := pr.1
      product_name := sov_data.new_product_name
      total_revenue := sov_data.new_product_revenue
      cannibalization_pct := sov_data.sov_breakdown.cannibalization_pct
      competitor_pct := sov_data.sov_breakdown.competitor_pct
      expansion_pct := sov_data.sov_breakdown.expansion_pct
      cannibalization_revenue := sov_data.cannibalized_revenue
      competitor_revenue := sov_data.competitor_loss
      expansion_revenue := sov_data.market_expansion }

/-- The monthly revenue series `sales.groupby(date.to_period('M'))['revenue'].sum()`
of a transaction list: one value per distinct month, in ascending month order
(pandas sorts the group index). -/
def monthlyRevenue (txns : List Txn) : List ℚ :=
  (insSortBy (fun a b => decide (a ≤ b)) ((txns.map (fun t => t.date.month)).dedup)).map
    fun m => revenueSum (txns.filter (fun t => t.date.month == m))

/-- The monthly revenue series of product `pid` between dates `s` (inclusive)
and `e` (exclusive), as built at `sov_analysis.py:232-242`. -/
def monthly_series (df : List Txn) (pid : Nat) (s e : Date) : List ℚ :=
  monthlyRevenue
    ((df.filter (fun t => t.product_id == pid)).filter
      (fun t => dle s t.date && dlt t.date e))

/-- One element of the per-launch `test_results` list
(`sov_analysis.py:248-255`). -/
structure SigTest where
  target_product_id : Nat
  revenue_loss : ℚ
  pct_change : ℚ
  t_statistic : ℚ
  p_value : ℚ
  is_significant : Bool
deriving DecidableEq, Repr

/-- Method `SOVAnalyzer._perform_significance_tests` (`sov_analysis.py:212-259`),
parameterized by `ttest`, an uninterpreted model of
`scipy.stats.ttest_ind : (sample, sample) ↦ (t statistic, p-value)`.
NOTE: the window width is the literal `window_months = 6` of line 218, NOT the
`window_months` argument given to `execute` — the source hardcodes 6 here. -/
def perform_significance_tests (ttest : List ℚ → List ℚ → ℚ × ℚ) (df : List Txn)
    (sov_by_launch : List (Nat × SOVRecord)) : List (Nat × List SigTest) :=
  sov_by_launch.map fun pr =>
    let sov_data := pr.2
    let launch_date := sov_data.launch_date
    let pre_start := launch_date.addMonths (-6)
    let pre_end := launch_date
    let post_start := launch_date
    let post_end := launch_date.addMonths 6
    let test_results := sov_data.cannibalized_products.filterMap fun target =>
      let pre_period := monthly_series df target.product_id pre_start pre_end
      let post_period := monthly_series df target.product_id post_start post_end
      if 1 < pre_period.length ∧ 1 < post_period.length then
        let r := ttest pre_period post_period
        some { target_product_id := target.product_id
               revenue_loss := target.revenue_loss
               pct_change := target.pct_change
               t_statistic := r.1
               p_value := r.2
               is_significant := decide (r.2 < 1/20) }
      else none
    (pr.1, test_results)

/-- The three result keys returned by `SOVAnalyzer.execute`. -/
structure SOVResults where
  sov_by_launch : List (Nat × SOVRecord)
  sov_breakdown : List BreakdownRow
  significance_tests : List (Nat × List SigTest)
deriving DecidableEq, Repr

/-- Method `SOVAnalyzer.execute` (`sov_analysis.py:28-70`).  The Python guard also
tests `'product_id' not in new_launches.columns`; the typed launch table
always has that column, so only the emptiness test remains. -/
def sov_execute (ttest : List ℚ → List ℚ → ℚ × ℚ) (window_months : Nat)
    (df : List Txn) (new_launches : List Launch) : SOVResults :=
  if new_launches.isEmpty then
    { sov_by_launch := [], sov_breakdown := [], significance_tests := [] }
  else
    let sov := analyze_sov_by_launch window_months df new_launches
    if sov.length > 0 then
      { sov_by_launch := sov
        sov_breakdown := calculate_sov_breakdown sov
        significance_tests := perform_significance_tests ttest df sov }
    else
      { sov_by_launch := sov, sov_breakdown := [], significance_tests := [] }

/- ----------------------------------------------------------------------
PortfolioImpactAnalyzer (`src/phase4/portfolio_impact.py`)
---------------------------------------------------------------------- -/

/-- Dict lookup `sov_results['sov_by_launch'][pid]` (guarded by
`pid in sov_results['sov_by_launch']`); the launch tables have unique product
ids, so first-match lookup agrees with Python dict lookup. -/
def sovFind (sov_by_launch : List (Nat × SOVRecord)) (pid : Nat) : Option SOVRecord :=
  (sov_by_launch.find? (fun pr => pr.1 == pid)).map (·.2)

/-- One row of the `portfolio_impact` frame
(`portfolio_impact.py:120-131`).  `roi = none` models the `float('inf')`
sentinel used when `lost_revenue` is zero. -/
structure ImpactRow where
  product_id : Nat
  product_name : String
  launch_date : Date
  new_product_revenue : ℚ
  lost_revenue : ℚ
  net_impact : ℚ
  net_impact_pct : ℚ
  portfolio_growth_pct : ℚ
  launch_type : String
  roi : Option ℚ
deriving DecidableEq, Repr

/-- Loop body of `PortfolioImpactAnalyzer._calculate_portfolio_impact`
(`portfolio_impact.py:67-131`) for one launch with SOV record `sov_data`. -/
def impact_row (window_months : Nat) (df : List Txn) (launch : Launch)
    (sov_data : SOVRecord) : ImpactRow :=
  let new_product_revenue := sov_data.new_product_revenue
  let lost_revenue := sov_data.cannibalized_revenue
  let net_impact := new_product_revenue - lost_revenue
  let net_impact_pct :=
    if 0 < new_product_revenue then net_impact / new_product_revenue * 100 else 0
  let portfolio_txns :=
    df.filter fun t => t.ptype == launch.ptype && t.brand == launch.brand
  let pre_portfolio_revenue := revenueSum (pre_window_txns window_months launch portfolio_txns)
  let post_portfolio_revenue := revenueSum (post_window_txns window_months launch portfolio_txns)
  let portfolio_growth :=
    if 0 < pre_portfolio_revenue then
      (post_portfolio_revenue - pre_portfolio_revenue) / pre_portfolio_revenue * 100
    else 0
  let launch_type :=
    if 0 < net_impact then "Additive"
    else if net_impact < -(new_product_revenue * (1/10)) then "Substitutive"
    else "Neutral"
  { product_id := launch.product_id
    product_name := launch.product_name
    launch_date := launch.launch_date
    new_product_revenue := new_product_revenue
    lost_revenue := lost_revenue
    net_impact := net_impact
    net_impact_pct := net_impact_pct
    portfolio_growth_pct := portfolio_growth
    launch_type := launch_type
    roi := if 0 < lost_revenue then some (net_impact / lost_revenue * 100) else none }

/-- Method `PortfolioImpactAnalyzer._calculate_portfolio_impact`
(`portfolio_impact.py:63-136`).  Launches without an SOV record are skipped
(line 80-81).  When the collected row list is empty, `pd.DataFrame([])` has no
columns and `sort_values('net_impact')` raises `KeyError`; that branch is the
`.error` case. -/
def calculate_portfolio_impact (window_months : Nat) (df : List Txn)
    (new_launches : List Launch) (sov_by_launch : List (Nat × SOVRecord)) :
    Except String (List ImpactRow) :=
  let impact_results := new_launches.filterMap fun launch =>
    (sovFind sov_by_launch launch.product_id).map (impact_row window_months df launch)
  if impact_results.isEmpty then
    Except.error "KeyError: net_impact"
  else
    Except.ok (insSortBy (fun a b => decide (b.net_impact ≤ a.net_impact)) impact_results)

/-- One row of the `category_impact` frame (`portfolio_impact.py:158-165`). -/
structure CategoryImpact where
  category : Nat
  num_launches : Nat
  total_new_revenue : ℚ
  total_lost_revenue : ℚ
  net_impact : ℚ
  net_impact_pct : ℚ
deriving DecidableEq, Repr

/-- One row of the `brand_impact` frame (`portfolio_impact.py:192-199`). -/
structure BrandImpact where
  brand : Nat
  num_launches : Nat
  total_new_revenue : ℚ
  total_lost_revenue : ℚ
  net_impact : ℚ
  net_impact_pct : ℚ
deriving DecidableEq, Repr

/-- The accumulation loop shared by `_calculate_category_impact` and
`_calculate_brand_impact` (`portfolio_impact.py:148-153` / `182-187`):
running totals `(total_new_revenue, total_lost_revenue)` over a launch group,
adding only launches that have an SOV record. -/
def sovTotals (sov_by_launch : List (Nat × SOVRecord)) (group : List Launch) : ℚ × ℚ :=
  group.foldl
    (fun acc launch =>
      match sovFind sov_by_launch launch.product_id with
      | some sov_data =>
          (acc.1 + sov_data.new_product_revenue, acc.2 + sov_data.cannibalized_revenue)
      | none => acc)
    (0, 0)

/-- Row construction of `PortfolioImpactAnalyzer._calculate_category_impact`
(`portfolio_impact.py:138-165`), before the final sort: one row per distinct
category of the launch table (`new_launches['type'].unique()`). -/
def category_impact_rows (new_launches : List Launch)
    (sov_by_launch : List (Nat × SOVRecord)) : List CategoryImpact :=
  ((new_launches.map (·.ptype)).dedup).map fun category =>
    let category_launches := new_launches.filter (fun l => l.ptype == category)
    let totals := sovTotals sov_by_launch category_launches
    let net_impact := totals.1 - totals.2
    { category := category
      num_launches := category_launches.length
      total_new_revenue := totals.1
      total_lost_revenue := totals.2
      net_impact := net_impact
      net_impact_pct := if 0 < totals.1 then net_impact / totals.1 * 100 else 0 }

/-- Method `PortfolioImpactAnalyzer._calculate_category_impact` with its final
`sort_values('net_impact', ascending=False)`; the empty-row-list case is the
pandas `KeyError` (unreachable from `execute`, which already raised earlier
when the launch table is empty). -/
def calculate_category_impact (new_launches : List Launch)
    (sov_by_launch : List (Nat × SOVRecord)) : Except String (List CategoryImpact) :=
  let rows := category_impact_rows new_launches sov_by_launch
  if rows.isEmpty then Except.error "KeyError: net_impact"
  else Except.ok (insSortBy (fun a b => decide (b.net_impact ≤ a.net_impact)) rows)

/-- Row construction of `PortfolioImpactAnalyzer._calculate_brand_impact`
(`portfolio_impact.py:172-199`), before the final sort. -/
def brand_impact_rows (new_launches : List Launch)
    (sov_by_launch : List (Nat × SOVRecord)) : List BrandImpact :=
  ((new_launches.map (·.brand)).dedup).map fun brand =>
    let brand_launches := new_launches.filter (fun l => l.brand == brand)
    let totals := sovTotals sov_by_launch brand_launches
    let net_impact := totals.1 - totals.2
    { brand := brand
      num_launches := brand_launches.length
      total_new_revenue := totals.1
      total_lost_revenue := totals.2
      net_impact := net_impact
      net_impact_pct := if 0 < totals.1 then net_impact / totals.1 * 100 else 0 }

/-- Method `PortfolioImpactAnalyzer._calculate_brand_impact` with its final sort. -/
def calculate_brand_impact (new_launches : List Launch)
    (sov_by_launch : List (Nat × SOVRecord)) : Except String (List BrandImpact) :=
  let rows := brand_impact_rows new_launches sov_by_launch
  if rows.isEmpty then Except.error "KeyError: net_impact"
  else Except.ok (insSortBy (fun a b => decide (b.net_impact ≤ a.net_impact)) rows)

/-- The per-launch value a launch contributes to its category/brand totals:
`new_product_revenue` from the launch's SOV record, 0 when it has none. -/
def sov_new_revenue (sov_by_launch : List (Nat × SOVRecord)) (launch : Launch) : ℚ :=
  match sovFind sov_by_launch launch.product_id with
  | some sov_data => sov_data.new_product_revenue
  | none => 0

/-- Value `cannibalized_revenue` from the launch's SOV record, 0 when it has none. -/
def sov_cannibalized (sov_by_launch : List (Nat × SOVRecord)) (launch : Launch) : ℚ :=
  match sovFind sov_by_launch launch.product_id with
  | some sov_data => sov_data.cannibalized_revenue
  | none => 0

/- ----------------------------------------------------------------------
NewLaunchIdentifier (`src/phase4/new_launch.py`)
---------------------------------------------------------------------- -/

/-- Column maximum `self.df['date'].max()`: `none` models pandas `NaT` on an empty column
(every comparison against `NaT` is false, so no launches would qualify). -/
def latest_date (df : List Txn) : Option Date :=
  df.foldl
    (fun acc t =>
      match acc with
      | none => some t.date
      | some m => some (if dle m t.date then t.date else m))
    none

/-- Method `NewLaunchIdentifier._identify_new_launches` (`new_launch.py:61-73`):
products with `launch_date >= latest_date - months`, sorted by launch date
descending. -/
def identify_new_launches (df : List Txn) (products_df : List Product) (months : Nat) :
    List Product :=
  match latest_date df with
  | none => []
  | some latest =>
    let cutoff_date := latest.addMonths (-(months : Int))
    insSortBy (fun a b => dle b.launch_date a.launch_date)
      (products_df.filter (fun p => dle cutoff_date p.launch_date))

/-- One row of the `launch_performance` frame (`new_launch.py:115-127`). -/
structure PerfRow where
  product_id : Nat
  product_name : String
  brand : Nat
  ptype : Nat
  launch_date : Date
  total_revenue : ℚ
  total_units : ℚ
  total_transactions : Nat
  growth_rate_pct : ℚ
  market_share_pct : ℚ
  performance_score : ℚ
deriving DecidableEq, Repr

/-- Loop body of `NewLaunchIdentifier._calculate_launch_performance`
(`new_launch.py:79-127`): `none` when the product has no post-launch sales
(the `continue` of line 87-88). -/
def perf_row (df : List Txn) (product : Product) : Option PerfRow :=
  let product_sales := df.filter (fun t => t.product_id == product.product_id)
  let launch_date := product.launch_date
  let post_launch_sales := product_sales.filter (fun t => dle launch_date t.date)
  if post_launch_sales.isEmpty then none
  else
    let total_revenue := revenueSum post_launch_sales
    let total_units := unitsSum post_launch_sales
    let total_transactions := ((post_launch_sales.map (·.transaction_id)).dedup).length
    let first_3m_end := launch_date.addMonths 3
    let next_3m_end := launch_date.addMonths 6
    let first_3m_revenue := revenueSum (post_launch_sales.filter
      (fun t => dle launch_date t.date && dlt t.date first_3m_end))
    let next_3m_revenue := revenueSum (post_launch_sales.filter
      (fun t => dle first_3m_end t.date && dlt t.date next_3m_end))
    let growth_rate :=
      if 0 < first_3m_revenue then
        (next_3m_revenue - first_3m_revenue) / first_3m_revenue * 100
      else 0
    let total_market_revenue := revenueSum (df.filter (fun t => dle launch_date t.date))
    let market_share :=
      if 0 < total_market_revenue then total_revenue / total_market_revenue * 100 else 0
    some
      { product_id := product.product_id
        product_name := product.product_name
        brand := product.brand
        ptype := product.ptype
        launch_date := launch_date
        total_revenue := total_revenue
        total_units := total_units
        total_transactions := total_transactions
        growth_rate_pct := growth_rate
        market_share_pct := market_share
        performance_score := total_revenue * (1 + growth_rate / 100) }

/-- Method `NewLaunchIdentifier._calculate_launch_performance` (`new_launch.py:75-132`).
When every candidate is skipped (in particular when `new_launches` is empty),
the collected row list is empty, `pd.DataFrame([])` has no columns, and
`sort_values('performance_score')` at line 130 raises `KeyError`; that branch
is the `.error` case. -/
def calculate_launch_performance (df : List Txn) (new_launches : List Product) :
    Except String (List PerfRow) :=
  let launch_performance := new_launches.filterMap (perf_row df)
  if launch_performance.isEmpty then
    Except.error "KeyError: performance_score"
  else
    Except.ok (insSortBy (fun a b => decide (b.performance_score ≤ a.performance_score))
      launch_performance)

/-- Method `NewLaunchIdentifier._select_top_launches` (`new_launch.py:134-140`). -/
def select_top_launches (launch_performance : List PerfRow) (top_n : Nat) : List PerfRow :=
  if launch_performance.isEmpty then []
  else launch_performance.take top_n

/- ----------------------------------------------------------------------
TimeSeriesForecaster (`src/phase3/time_series_forecast.py`)
---------------------------------------------------------------------- -/

/-- A fitted time-series model, abstracting `SARIMAX(...).fit(...)` and
`Prophet(...).fit(...)`: `pred i` is the fitted model's point prediction for
month index `i` of the monthly series (0-based from the series start; the
model is fitted on the training prefix, so indices `≥ train.length` are
out-of-sample).  `predLower`/`predUpper` are Prophet's `yhat_lower`/`yhat_upper`
uncertainty bounds.  statsmodels' `results.forecast(steps=k)` returns the
out-of-sample predictions for the `k` periods immediately following the
estimation sample, and Prophet's `make_future_dataframe(periods=k, freq='MS')`
extends the fitted history (the training prefix) by `k` months — both are
modelled through these indexed prediction functions. -/
structure FittedModel where
  pred : Nat → ℚ
  predLower : Nat → ℚ
  predUpper : Nat → ℚ

/-- Forecast error metrics (`time_series_forecast.py:174-178` etc.).
`rmse = √mse` is real-valued (irrational in general) and not representable in
the rational model; no claim below concerns it, so it is omitted here, and
`mape` is meaningful only when no actual test value is zero — a fragility the
code shares (`np.mean(np.abs((test - forecast) / test)) * 100`). -/
structure Metrics where
  mse : ℚ
  mae : ℚ
  mape : ℚ
deriving DecidableEq, Repr

/-- Arithmetic mean (`np.mean`); `ℚ` division is total with `q / 0 = 0`,
whereas numpy would produce `nan` on an empty array — no claim below
evaluates a metric on an empty series. -/
def listMean (l : List ℚ) : ℚ := l.sum / l.length

/-- Metric formulas `mean_squared_error`, `mean_absolute_error` and the MAPE formula of the
source, bundled. -/
def compute_metrics (actual forecast : List ℚ) : Metrics :=
  { mse := listMean (List.zipWith (fun a f => (a - f) ^ 2) actual forecast)
    mae := listMean (List.zipWith (fun a f => |a - f|) actual forecast)
    mape := listMean (List.zipWith (fun a f => |(a - f) / a|) actual forecast) * 100 }

/-- Result of `TimeSeriesForecaster._sarima_forecast`
(`time_series_forecast.py:150-194`), on the success path.  Forecast entries
are `(month index, value)` pairs so that the period a forecast value refers to
is explicit in the model. -/
structure SarimaResult where
  forecast : List (Nat × ℚ)
  future_forecast : List (Nat × ℚ)
  metrics : Metrics
  is_stationary : Bool

/-- Method `TimeSeriesForecaster._sarima_forecast` (`time_series_forecast.py:150-194`),
parameterized by `fit` (the `SARIMAX(...).fit(...)` call, uninterpreted) and
`adf` (the `adfuller` p-value, uninterpreted).  Both `forecast(steps=len(test))`
and `forecast(steps=forecast_horizon)` predict the periods immediately after
the estimation sample, i.e. month indices `train.length, train.length+1, …`. -/
def sarima_forecast (fit : List ℚ → FittedModel) (adf : List ℚ → ℚ)
    (train test : List ℚ) (forecast_horizon : Nat) : SarimaResult :=
  let is_stationary := decide (adf train < 1/20)
  let fitted_model := fit train
  let forecast := (List.range test.length).map
    (fun i => (train.length + i, fitted_model.pred (train.length + i)))
  let future_forecast := (List.range forecast_horizon).map
    (fun i => (train.length + i, fitted_model.pred (train.length + i)))
  { forecast := forecast
    future_forecast := future_forecast
    metrics := compute_metrics test (forecast.map (·.2))
    is_stationary := is_stationary }

/-- Result of `TimeSeriesForecaster._prophet_forecast`
(`time_series_forecast.py:196-252`), on the success path. -/
structure ProphetResult where
  forecast : List (Nat × ℚ)
  future_forecast : List (Nat × ℚ)
  confidence_lower : List ℚ
  confidence_upper : List ℚ
  metrics : Metrics

/-- Method `TimeSeriesForecaster._prophet_forecast` (`time_series_forecast.py:196-252`).
`make_future_dataframe(periods=k, freq='MS')` produces the training months
followed by `k` further months; `predict` evaluates the fitted model on all of
them, and `.iloc[-k:]` keeps the trailing `k` rows — month indices
`train.length … train.length + k - 1`. -/
def prophet_forecast (fit : List ℚ → FittedModel) (train test : List ℚ)
    (forecast_horizon : Nat) : ProphetResult :=
  let model := fit train
  let forecast_frame := (List.range (train.length + test.length)).map
    (fun i => (i, model.pred i))
  let test_pred := forecast_frame.drop train.length
  let future_frame := (List.range (train.length + forecast_horizon)).map
    (fun i => (i, model.pred i))
  let future_forecast := future_frame.drop train.length
  { forecast := test_pred
    future_forecast := future_forecast
    confidence_lower := (forecast_frame.drop train.length).map (fun p => model.predLower p.1)
    confidence_upper := (forecast_frame.drop train.length).map (fun p => model.predUpper p.1)
    metrics := compute_metrics test (test_pred.map (·.2)) }

/-- The slice of a fitted model's result dict read by
`TimeSeriesForecaster._create_ensemble_forecast`: the test-aligned forecast
values (`results['forecast'].values`) and `results['metrics']['mape']`. -/
structure ModelResult where
  forecast : List ℚ
  mape : ℚ
deriving DecidableEq, Repr

/-- The two ensemble series and their metric sets
(`time_series_forecast.py:290-307`). -/
structure EnsembleResult where
  simple_ensemble : List ℚ
  weighted_ensemble : List ℚ
  simple_metrics : Metrics
  weighted_metrics : Metrics
deriving DecidableEq, Repr

/-- Body of `TimeSeriesForecaster._create_ensemble_forecast`
(`time_series_forecast.py:254-307`) past the emptiness guard. -/
def create_ensemble_core (sarima_results prophet_results : ModelResult)
    (test : List ℚ) : EnsembleResult :=
  let ensemble_forecast :=
    List.zipWith (fun a b => (a + b) / 2) sarima_results.forecast prophet_results.forecast
  let sarima_mape := sarima_results.mape
  let prophet_mape := prophet_results.mape
  let sarima_weight := 1 / (sarima_mape + 1/1000)
  let prophet_weight := 1 / (prophet_mape + 1/1000)
  let total_weight := sarima_weight + prophet_weight
  let weighted_ensemble :=
    List.zipWith
      (fun a b => a * (sarima_weight / total_weight) + b * (prophet_weight / total_weight))
      sarima_results.forecast prophet_results.forecast
  { simple_ensemble := ensemble_forecast
    weighted_ensemble := weighted_ensemble
    simple_metrics := compute_metrics test ensemble_forecast
    weighted_metrics := compute_metrics test weighted_ensemble }

/-- Method `TimeSeriesForecaster._create_ensemble_forecast` with its guard
`if not sarima_results or not prophet_results: return {}` — a failed model fit
leaves an empty dict, modelled as `none`. -/
def create_ensemble_forecast (sarima_results prophet_results : Option ModelResult)
    (test : List ℚ) : Option EnsembleResult :=
  match sarima_results, prophet_results with
  | some s, some p => some (create_ensemble_core s p test)
  | _, _ => none

/- ----------------------------------------------------------------------
Concrete data used by witnesses and counterexamples
---------------------------------------------------------------------- -/

/-- A concrete launch: product 1, launched on day 1 of month 100,
category 0, brand 0. -/
def wLaunch : Launch :=
  { product_id := 1, product_name := "N", launch_date := { month := 100, day := 1 },
    ptype := 0, brand := 0 }

/-- A concrete sales table: the new product 1 earns 200 in the post window;
sibling product 2 (same category, same brand) earns 100 in each of months
95 and 96 (pre window) and 60 + 40 in months 101 and 102 (post window). -/
def wDf : List Txn :=
  [ { transaction_id := 1, product_id := 1, date := { month := 101, day := 5 },
      revenue := 200, units_sold := 2, ptype := 0, brand := 0 },
    { transaction_id := 2, product_id := 2, date := { month := 95, day := 10 },
      revenue := 100, units_sold := 1, ptype := 0, brand := 0 },
    { transaction_id := 3, product_id := 2, date := { month := 96, day := 10 },
      revenue := 100, units_sold := 1, ptype := 0, brand := 0 },
    { transaction_id := 4, product_id := 2, date := { month := 101, day := 10 },
      revenue := 60, units_sold := 1, ptype := 0, brand := 0 },
    { transaction_id := 5, product_id := 2, date := { month := 102, day := 10 },
      revenue := 40, units_sold := 1, ptype := 0, brand := 0 } ]

/-- SOV analysis of the concrete table with the default 6-month window. -/
def wSov : List (Nat × SOVRecord) := analyze_sov_by_launch 6 wDf [wLaunch]

/-- A concrete stand-in for `scipy.stats.ttest_ind`: every call returns
t-statistic 2 and p-value 1/100. -/
def wT : List ℚ → List ℚ → ℚ × ℚ := fun _ _ => (2, 1/100)

/-- The portfolio-impact row of the concrete table: product 1 earns 200,
cannibalizes 100 from product 2, net impact 100 — Additive. -/
def wRow : ImpactRow :=
  { product_id := 1
    product_name := "N"
    launch_date := { month := 100, day := 1 }
    new_product_revenue := 200
    lost_revenue := 100
    net_impact := 100
    net_impact_pct := 50
    portfolio_growth_pct := 50
    launch_type := "Additive"
    roi := some 100 }

/-- A sales table for the 12-month-window counterexample: sibling product 2
has all its pre-window revenue in months 92-93 and all its post-window revenue
in months 107-108 — inside the 12-month windows around month 100 but wholly
outside the 6-month windows. -/
def cDf : List Txn :=
  [ { transaction_id := 1, product_id := 1, date := { month := 100, day := 10 },
      revenue := 200, units_sold := 2, ptype := 0, brand := 0 },
    { transaction_id := 2, product_id := 2, date := { month := 92, day := 5 },
      revenue := 100, units_sold := 1, ptype := 0, brand := 0 },
    { transaction_id := 3, product_id := 2, date := { month := 93, day := 5 },
      revenue := 100, units_sold := 1, ptype := 0, brand := 0 },
    { transaction_id := 4, product_id := 2, date := { month := 107, day := 5 },
      revenue := 50, units_sold := 1, ptype := 0, brand := 0 },
    { transaction_id := 5, product_id := 2, date := { month := 108, day := 5 },
      revenue := 40, units_sold := 1, ptype := 0, brand := 0 } ]

/-- SOV analysis of `cDf` with `window_months = 12`. -/
def cSov : List (Nat × SOVRecord) := analyze_sov_by_launch 12 cDf [wLaunch]

/-- A sales table whose only transaction is in month 50. -/
def c6Df : List Txn :=
  [ { transaction_id := 1, product_id := 1, date := { month := 50, day := 1 },
      revenue := 10, units_sold := 1, ptype := 0, brand := 0 } ]

/-- A product master whose only product launched in month 10 — far before the
12-month lookback cutoff (month 38) derived from `c6Df`. -/
def c6Products : List Product :=
  [ { product_id := 1, product_name := "Old", brand := 0, ptype := 0,
      launch_date := { month := 10, day := 1 }, base_price := 5 } ]

/-- A concrete fitted-model constructor: the model that predicts the month
index itself. -/
def c5Fit : List ℚ → FittedModel :=
  fun _ => { pred := fun i => (i : ℚ), predLower := fun i => (i : ℚ),
             predUpper := fun i => (i : ℚ) }

/-- A concrete stand-in for the `adfuller` p-value. -/
def c5Adf : List ℚ → ℚ := fun _ => 1

/-- Training prefix of a 10-month series under the 80/20 split. -/
def c5Train : List ℚ := [1, 2, 3, 4, 5, 6, 7, 8]

/-- Held-out suffix of that series. -/
def c5Test : List ℚ := [9, 10]

/- ----------------------------------------------------------------------
Helper lemmas
---------------------------------------------------------------------- -/

theorem mem_insertOrdered {r : α → α → Bool} {a b : α} {l : List α} :
    b ∈ insertOrdered r a l ↔ b = a ∨ b ∈ l := by
  induction l with
  | nil => simp [insertOrdered]
  | cons x xs ih =>
    simp only [insertOrdered]
    split
    · simp
    · simp only [List.mem_cons, ih]
      tauto

theorem mem_insSortBy {r : α → α → Bool} {b : α} {l : List α} :
    b ∈ insSortBy r l ↔ b ∈ l := by
  induction l with
  | nil => simp [insSortBy]
  | cons x xs ih => simp [insSortBy, mem_insertOrdered, ih]

theorem mem_productIds {txns : List Txn} {pid : Nat} :
    pid ∈ productIds txns ↔ ∃ t ∈ txns, t.product_id = pid := by
  simp [productIds, List.mem_dedup, List.mem_map, eq_comm]

theorem sum_map_sub (f g : α → ℚ) (l : List α) :
    (l.map fun x => f x - g x).sum = (l.map f).sum - (l.map g).sum := by
  induction l with
  | nil => simp
  | cons x xs ih =>
    simp only [List.map_cons, List.sum_cons, ih]
    ring

theorem sovTotals_eq (sov : List (Nat × SOVRecord)) (g : List Launch) :
    sovTotals sov g
      = ((g.map (sov_new_revenue sov)).sum, (g.map (sov_cannibalized sov)).sum) := by
  suffices h : ∀ (a b : ℚ),
      g.foldl
        (fun acc launch =>
          match sovFind sov launch.product_id with
          | some sov_data =>
              (acc.1 + sov_data.new_product_revenue, acc.2 + sov_data.cannibalized_revenue)
          | none => acc)
        (a, b)
      = (a + (g.map (sov_new_revenue sov)).sum, b + (g.map (sov_cannibalized sov)).sum) by
    simpa [sovTotals] using h 0 0
  induction g with
  | nil => simp
  | cons x xs ih =>
    intro a b
    simp only [List.foldl_cons, List.map_cons, List.sum_cons]
    cases h : sovFind sov x.product_id with
    | none =>
      rw [ih]
      simp only [sov_new_revenue, sov_cannibalized, h, Prod.mk.injEq]
      constructor <;> ring
    | some d =>
      rw [ih]
      simp only [sov_new_revenue, sov_cannibalized, h, Prod.mk.injEq]
      constructor <;> ring

theorem sum_revenue_loss_filterMap (pre_txns post_txns : List Txn) (l : List Nat) :
    ((l.filterMap (cannEntry pre_txns post_txns)).map (·.revenue_loss)).sum
      = ((l.filter fun pid => decide (pid ∈ productIds post_txns)).map
          fun pid => max 0 (groupRevenue pre_txns pid - groupRevenue post_txns pid)).sum := by
  induction l with
  | nil => simp
  | cons pid l ih =>
    simp only [List.filterMap_cons, List.filter_cons]
    by_cases hpost : pid ∈ productIds post_txns
    · by_cases hneg : groupRevenue post_txns pid - groupRevenue pre_txns pid < 0
      · have hentry : cannEntry pre_txns post_txns pid
            = some { product_id := pid
                     revenue_loss := |groupRevenue post_txns pid - groupRevenue pre_txns pid|
                     pct_change :=
                       if 0 < groupRevenue pre_txns pid then
                         (groupRevenue post_txns pid - groupRevenue pre_txns pid)
                           / groupRevenue pre_txns pid * 100
                       else 0 } := by
          simp [cannEntry, hpost, hneg]
        have habs : |groupRevenue post_txns pid - groupRevenue pre_txns pid|
            = groupRevenue pre_txns pid - groupRevenue post_txns pid := by
          rw [abs_of_neg hneg]; ring
        have hmax : max 0 (groupRevenue pre_txns pid - groupRevenue post_txns pid)
            = groupRevenue pre_txns pid - groupRevenue post_txns pid :=
          max_eq_right (by linarith)
        rw [hentry]
        simp [hpost, ih, habs, hmax]
      · have hentry : cannEntry pre_txns post_txns pid = none := by
          simp [cannEntry, hpost, hneg]
        have hmax : max 0 (groupRevenue pre_txns pid - groupRevenue post_txns pid) = 0 :=
          max_eq_left (by linarith [not_lt.mp hneg])
        rw [hentry]
        simp [hpost, ih, hmax]
    · have hentry : cannEntry pre_txns post_txns pid = none := by
        simp [cannEntry, hpost]
      rw [hentry]
      simp [hpost, ih]

theorem nodup_productIds (txns : List Txn) : (productIds txns).Nodup :=
  List.nodup_dedup _

theorem ids_filter_perm (siblings pre_txns post_txns : List Txn)
    (hsub : ∀ t ∈ pre_txns, t ∈ siblings) :
    ((productIds pre_txns).filter
        (fun pid => decide (pid ∈ productIds post_txns))).Perm
      ((productIds siblings).filter
        (fun pid => decide (pid ∈ productIds pre_txns)
          && decide (pid ∈ productIds post_txns))) := by
  apply (List.perm_ext_iff_of_nodup
      (List.Nodup.filter _ (nodup_productIds _))
      (List.Nodup.filter _ (nodup_productIds _))).mpr
  intro a
  simp only [List.mem_filter, decide_eq_true_eq, Bool.and_eq_true]
  constructor
  · rintro ⟨hpre, hpost⟩
    refine ⟨?_, hpre, hpost⟩
    rcases mem_productIds.mp hpre with ⟨t, ht, rfl⟩
    exact mem_productIds.mpr ⟨t, hsub t ht, rfl⟩
  · rintro ⟨-, hpre, hpost⟩
    exact ⟨hpre, hpost⟩

/-- Claim C1: for every analyzed launch, `cannibalized_revenue` equals the sum,
over every other product of the same category and brand that has revenue
recorded in both the pre and the post window, of
`max(0, pre-window revenue − post-window revenue)`; siblings without a
pre-window baseline contribute nothing, and one sibling's gains never offset
another's losses (the floor is per product). -/
theorem c1_cannibalized_revenue_matches_spec
    (window_months : Nat) (df : List Txn) (launch : Launch) :
    (analyze_sov_for_launch window_months df launch).cannibalized_revenue
      = spec_cannibalized_revenue window_months df launch := by
  simp only [analyze_sov_for_launch, spec_cannibalized_revenue, cannibalizedProducts]
  rw [sum_revenue_loss_filterMap]
  exact List.Perm.sum_eq
    (List.Perm.map _
      (ids_filter_perm _ _ _ (fun t ht => (List.mem_filter.mp ht).1)))

theorem groupRevenue_nonneg (txns : List Txn) (pid : Nat)
    (h : ∀ t ∈ txns, 0 ≤ t.revenue) : 0 ≤ groupRevenue txns pid := by
  apply List.sum_nonneg
  intro x hx
  rcases List.mem_map.mp hx with ⟨t, ht, rfl⟩
  exact h t (List.mem_filter.mp ht).1

/-- Claim C9: in every SOV record produced for any launch and any transaction
table, `cannibalized_revenue ≥ 0` and `competitor_loss ≥ 0` — both floored at
zero by construction. -/
theorem c9_sov_floors_nonneg (window_months : Nat) (df : List Txn)
    (launches : List Launch) (pr : Nat × SOVRecord)
    (hpr : pr ∈ analyze_sov_by_launch window_months df launches) :
    0 ≤ pr.2.cannibalized_revenue ∧ 0 ≤ pr.2.competitor_loss := by
  rcases List.mem_map.mp hpr with ⟨launch, -, rfl⟩
  constructor
  · simp only [analyze_sov_for_launch]
    apply List.sum_nonneg
    intro x hx
    rcases List.mem_map.mp hx with ⟨e, he, rfl⟩
    rcases List.mem_filterMap.mp he with ⟨pid, -, hfe⟩
    unfold cannEntry at hfe
    split at hfe
    · dsimp only at hfe
      split at hfe
      · cases hfe
        exact abs_nonneg _
      · cases hfe
    · cases hfe
  · simp only [analyze_sov_for_launch]
    split
    · rename_i h
      linarith
    · exact le_refl 0

/-- Witness for C9: the concrete launch of `wDf` satisfies both floors. -/
theorem c9_witness :
    ((wLaunch.product_id, analyze_sov_for_launch 6 wDf wLaunch)
        ∈ analyze_sov_by_launch 6 wDf [wLaunch])
      ∧ 0 ≤ (analyze_sov_for_launch 6 wDf wLaunch).cannibalized_revenue
      ∧ 0 ≤ (analyze_sov_for_launch 6 wDf wLaunch).competitor_loss :=
  ⟨List.mem_singleton.mpr rfl,
   c9_sov_floors_nonneg 6 wDf [wLaunch] _ (List.mem_singleton.mpr rfl)⟩

/-- Claim C10: every entry of `cannibalized_products` has
`revenue_loss > 0` and `pct_change < 0` (given nonnegative transaction
revenues); a sibling whose post-window revenue is ≥ its pre-window revenue
never appears, a recorded loss forces strictly positive pre-window revenue,
and the division-by-zero guard value `pct_change = 0` is never produced —
`pct_change` always takes the non-guard branch's value. -/
theorem c10_cannibalized_entries_strict (window_months : Nat) (df : List Txn)
    (launch : Launch) (hrev : ∀ t ∈ df, 0 ≤ t.revenue) (e : CannEntry)
    (he : e ∈ (analyze_sov_for_launch window_months df launch).cannibalized_products) :
    groupRevenue (post_window_txns window_months launch (sibling_txns df launch)) e.product_id
        < groupRevenue (pre_window_txns window_months launch (sibling_txns df launch)) e.product_id
      ∧ 0 < groupRevenue (pre_window_txns window_months launch (sibling_txns df launch)) e.product_id
      ∧ 0 < e.revenue_loss
      ∧ e.pct_change
          = (groupRevenue (post_window_txns window_months launch (sibling_txns df launch)) e.product_id
              - groupRevenue (pre_window_txns window_months launch (sibling_txns df launch)) e.product_id)
            / groupRevenue (pre_window_txns window_months launch (sibling_txns df launch)) e.product_id
            * 100
      ∧ e.pct_change < 0 := by
  simp only [analyze_sov_for_launch, cannibalizedProducts] at he
  rcases List.mem_filterMap.mp he with ⟨pid, -, hfe⟩
  unfold cannEntry at hfe
  split at hfe
  · rename_i hpost
    dsimp only at hfe
    split at hfe
    · rename_i hneg
      have hpostnn : 0 ≤ groupRevenue
          (post_window_txns window_months launch (sibling_txns df launch)) pid := by
        apply groupRevenue_nonneg
        intro t ht
        exact hrev t (List.mem_filter.mp (List.mem_filter.mp ht).1).1
      cases hfe
      have hprepos : 0 < groupRevenue
          (pre_window_txns window_months launch (sibling_txns df launch)) pid := by
        linarith
      refine ⟨by linarith, hprepos, ?_, ?_, ?_⟩
      · exact abs_pos.mpr (ne_of_lt hneg)
      · simp [hprepos]
      · simp only [if_pos hprepos]
        apply mul_neg_of_neg_of_pos
        · exact div_neg_of_neg_of_pos hneg hprepos
        · norm_num
    · cases hfe
  · cases hfe

/-- Witness for C10: the sibling product 2 of the concrete table loses 100
(of 200) and appears with `revenue_loss = 100 > 0` and `pct_change = -50 < 0`. -/
theorem c10_witness :
    (∀ t ∈ wDf, 0 ≤ t.revenue)
      ∧ ({ product_id := 2, revenue_loss := 100, pct_change := -50 } : CannEntry)
          ∈ (analyze_sov_for_launch 6 wDf wLaunch).cannibalized_products
      ∧ (0 : ℚ) < (100 : ℚ)
      ∧ (-50 : ℚ) < 0 := by
  have hrev : ∀ t ∈ wDf, 0 ≤ t.revenue := by decide
  have hmem : ({ product_id := 2, revenue_loss := 100, pct_change := -50 } : CannEntry)
      ∈ (analyze_sov_for_launch 6 wDf wLaunch).cannibalized_products := by
    norm_num [analyze_sov_for_launch, cannibalizedProducts, cannEntry, productIds,
      groupRevenue, revenueSum, sibling_txns, pre_window_txns, post_window_txns,
      dle, dlt, Date.addMonths, wDf, wLaunch, List.dedup, List.filterMap_cons,
      List.filterMap_nil]
  exact ⟨hrev, hmem,
    (c10_cannibalized_entries_strict 6 wDf wLaunch hrev _ hmem).2.2.1,
    (c10_cannibalized_entries_strict 6 wDf wLaunch hrev _ hmem).2.2.2.2⟩

/-- Claim C2: every row of the portfolio-impact output satisfies
`net_impact = new_product_revenue − lost_revenue` (the launch's SOV
`cannibalized_revenue`) exactly, and `launch_type` is assigned by the
mutually exclusive ordered rules — `net_impact > 0 ⇒ Additive`, otherwise
`net_impact < −0.1·new_product_revenue ⇒ Substitutive`, otherwise `Neutral` —
so exactly one of the three labels holds per launch. -/
theorem c2_net_impact_and_classification (window_months : Nat) (df : List Txn)
    (new_launches : List Launch) (sov_by_launch : List (Nat × SOVRecord))
    (rows : List ImpactRow)
    (hrows : calculate_portfolio_impact window_months df new_launches sov_by_launch
      = Except.ok rows)
    (r : ImpactRow) (hr : r ∈ rows) :
    r.net_impact = r.new_product_revenue - r.lost_revenue
      ∧ (r.launch_type = "Additive" ∨ r.launch_type = "Substitutive"
          ∨ r.launch_type = "Neutral")
      ∧ (r.launch_type = "Additive" ↔ 0 < r.net_impact)
      ∧ (r.launch_type = "Substitutive"
          ↔ ¬ 0 < r.net_impact ∧ r.net_impact < -(r.new_product_revenue * (1/10)))
      ∧ (r.launch_type = "Neutral"
          ↔ ¬ 0 < r.net_impact ∧ ¬ r.net_impact < -(r.new_product_revenue * (1/10))) := by
  simp only [calculate_portfolio_impact] at hrows
  split at hrows
  · cases hrows
  · injection hrows with h
    subst h
    rw [mem_insSortBy] at hr
    rcases List.mem_filterMap.mp hr with ⟨launch, -, hopt⟩
    rcases Option.map_eq_some'.mp hopt with ⟨sov_data, -, rfl⟩
    simp only [impact_row]
    by_cases h1 : 0 < sov_data.new_product_revenue - sov_data.cannibalized_revenue
    · simp only [if_pos h1]
      refine ⟨trivial, Or.inl trivial, ?_, ?_, ?_⟩ <;> simp [h1]
    · simp only [if_neg h1]
      by_cases h2 : sov_data.new_product_revenue - sov_data.cannibalized_revenue
          < -(sov_data.new_product_revenue * (1/10))
      · simp only [if_pos h2]
        refine ⟨trivial, Or.inr (Or.inl trivial), ?_, ?_, ?_⟩ <;> simp [h1, h2] <;>
          linarith [not_lt.mp h1, h2]
      · simp only [if_neg h2]
        refine ⟨trivial, Or.inr (Or.inr trivial), ?_, ?_, ?_⟩ <;> simp [h1, h2] <;>
          linarith [not_lt.mp h1, not_lt.mp h2]

/-- Witness for C2: the concrete table yields exactly the row `wRow`, which
has `net_impact = 200 − 100 = 100 > 0` and label `Additive`. -/
theorem c2_witness :
    calculate_portfolio_impact 6 wDf [wLaunch] wSov = Except.ok [wRow]
      ∧ wRow.net_impact = wRow.new_product_revenue - wRow.lost_revenue
      ∧ wRow.launch_type = "Additive" := by
  have h : calculate_portfolio_impact 6 wDf [wLaunch] wSov = Except.ok [wRow] := by
    norm_num [calculate_portfolio_impact, impact_row, sovFind, wSov, analyze_sov_by_launch,
      analyze_sov_for_launch, cannibalizedProducts, cannEntry, productIds, groupRevenue,
      revenueSum, unitsSum, sibling_txns, pre_window_txns, post_window_txns, dle, dlt,
      Date.addMonths, wDf, wLaunch, wRow, List.dedup, List.filterMap_cons, List.filterMap_nil,
      insSortBy, insertOrdered, List.find?]
  have hprops := c2_net_impact_and_classification 6 wDf [wLaunch] wSov [wRow] h wRow
    (List.mem_singleton.mpr rfl)
  refine ⟨h, hprops.1, ?_⟩
  have : (0:ℚ) < wRow.net_impact := by norm_num [wRow]
  exact hprops.2.2.1.mpr this

/-- Claim C3 (code bug): with an empty launch table, `SOVAnalyzer.execute`
does return the three empty structures, but `PortfolioImpactAnalyzer` does not
produce zero rows without raising — `_calculate_portfolio_impact` collects no
rows and then `pd.DataFrame([]).sort_values('net_impact')` raises `KeyError`
(`portfolio_impact.py:133-134`), for every transaction table and SOV input. -/
theorem c3_empty_launches_portfolio_raises (ttest : List ℚ → List ℚ → ℚ × ℚ)
    (window_months : Nat) (df : List Txn) (sov_by_launch : List (Nat × SOVRecord)) :
    sov_execute ttest window_months df []
        = { sov_by_launch := [], sov_breakdown := [], significance_tests := [] }
      ∧ calculate_portfolio_impact window_months df [] sov_by_launch
        = Except.error "KeyError: net_impact" :=
  ⟨rfl, rfl⟩

/-- Claim C6 (code bug): when no product's launch date falls inside the
lookback window, `_identify_new_launches` does return an empty table and
`_select_top_launches` would return an empty selection, but
`_calculate_launch_performance` raises instead of returning an empty scoring
table: with no scored rows, `pd.DataFrame([]).sort_values('performance_score')`
at `new_launch.py:130` raises `KeyError` before the guarded empty selection at
line 136 can ever run. -/
theorem c6_no_qualifying_launches_raises :
    identify_new_launches c6Df c6Products 12 = []
      ∧ calculate_launch_performance c6Df (identify_new_launches c6Df c6Products 12)
        = Except.error "KeyError: performance_score"
      ∧ select_top_launches [] 5 = [] := by
  have h : identify_new_launches c6Df c6Products 12 = [] := by
    norm_num [identify_new_launches, latest_date, c6Df, c6Products, Date.addMonths,
      dle, insSortBy]
  exact ⟨h, by rw [h]; rfl, rfl⟩

theorem zipWith_ext (f g : α → β → γ) (h : ∀ a b, f a b = g a b) :
    ∀ (l₁ : List α) (l₂ : List β), List.zipWith f l₁ l₂ = List.zipWith g l₁ l₂ := by
  intro l₁
  induction l₁ with
  | nil => intro l₂; simp
  | cons x xs ih =>
    intro l₂
    cases l₂ with
    | nil => simp
    | cons y ys => simp [h, ih]

theorem map_range_add_drop (f : Nat → α) (n k : Nat) :
    (((List.range (n + k)).map f).drop n) = (List.range k).map (fun i => f (n + i)) := by
  rw [List.range_add, List.map_append]
  have hlen : ((List.range n).map f).length = n := by simp
  rw [List.drop_left' hlen, List.map_map]
  rfl

/-- Claim C5 (amended): each model fitted on the training prefix produces a
test-length forecast aligned exactly to the held-out suffix (month indices
`train.length … train.length + test.length − 1`) and a separate
`forecast_horizon`-length future forecast — but the future forecast covers the
`forecast_horizon` months immediately following the **training prefix**
(indices `train.length … train.length + horizon − 1`), overlapping the
held-out suffix, not the period beyond the end of the full series. -/
theorem c5_forecast_alignment (fit : List ℚ → FittedModel) (adf : List ℚ → ℚ)
    (train test : List ℚ) (forecast_horizon : Nat) :
    ((sarima_forecast fit adf train test forecast_horizon).forecast.map Prod.fst
        = (List.range test.length).map (fun i => train.length + i))
      ∧ ((sarima_forecast fit adf train test forecast_horizon).future_forecast.map Prod.fst
        = (List.range forecast_horizon).map (fun i => train.length + i))
      ∧ ((prophet_forecast fit train test forecast_horizon).forecast.map Prod.fst
        = (List.range test.length).map (fun i => train.length + i))
      ∧ ((prophet_forecast fit train test forecast_horizon).future_forecast.map Prod.fst
        = (List.range forecast_horizon).map (fun i => train.length + i))
      ∧ (sarima_forecast fit adf train test forecast_horizon).forecast.length = test.length
      ∧ (sarima_forecast fit adf train test forecast_horizon).future_forecast.length
        = forecast_horizon
      ∧ (prophet_forecast fit train test forecast_horizon).forecast.length = test.length
      ∧ (prophet_forecast fit train test forecast_horizon).future_forecast.length
        = forecast_horizon := by
  refine ⟨?_, ?_, ?_, ?_, ?_, ?_, ?_, ?_⟩ <;>
    simp [sarima_forecast, prophet_forecast, map_range_add_drop, List.map_map,
      Function.comp]

/-- Counterexample to C5 as stated: with an 8-month training prefix, a 2-month
held-out suffix and the default 12-month horizon, both future forecasts
include month index 8 — inside the full series (length 10), not beyond its
end, so the future forecast does not cover "the period beyond the end of the
full series". -/
theorem c5_counterexample :
    ¬ (∀ p ∈ (sarima_forecast c5Fit c5Adf c5Train c5Test 12).future_forecast,
        c5Train.length + c5Test.length ≤ p.1)
      ∧ ¬ (∀ p ∈ (prophet_forecast c5Fit c5Train c5Test 12).future_forecast,
        c5Train.length + c5Test.length ≤ p.1)
      ∧ 8 ∈ ((sarima_forecast c5Fit c5Adf c5Train c5Test 12).future_forecast.map Prod.fst)
      ∧ 8 ∈ ((prophet_forecast c5Fit c5Train c5Test 12).future_forecast.map Prod.fst)
      ∧ 8 < c5Train.length + c5Test.length := by
  have hs : 8 ∈ ((sarima_forecast c5Fit c5Adf c5Train c5Test 12).future_forecast.map
      Prod.fst) := by
    simp [sarima_forecast, c5Fit, c5Adf, c5Train, c5Test, List.map_map, Function.comp]
  have hp0 : (prophet_forecast c5Fit c5Train c5Test 12).future_forecast
      = (List.range 12).map
        (fun i => (c5Train.length + i, (c5Fit c5Train).pred (c5Train.length + i))) := by
    simp only [prophet_forecast]
    exact map_range_add_drop (fun i => (i, (c5Fit c5Train).pred i)) c5Train.length 12
  have hp : 8 ∈ ((prophet_forecast c5Fit c5Train c5Test 12).future_forecast.map
      Prod.fst) := by
    rw [hp0]
    simp [List.map_map, Function.comp, c5Train]
  refine ⟨?_, ?_, hs, hp, by norm_num [c5Train, c5Test]⟩
  · intro hall
    rcases List.mem_map.mp hs with ⟨p, hpmem, hp1⟩
    have := hall p hpmem
    rw [hp1] at this
    norm_num [c5Train, c5Test] at this
  · intro hall
    rcases List.mem_map.mp hp with ⟨p, hpmem, hp1⟩
    have := hall p hpmem
    rw [hp1] at this
    norm_num [c5Train, c5Test] at this

/-- Claim C4 (amended): the significance-testing pass uses **fixed 6-month**
windows around each launch date (the source hardcodes `window_months = 6` at
`sov_analysis.py:218`, ignoring the window used for the SOV decomposition).
For every cannibalized sibling with at least 2 monthly revenue observations in
both fixed 6-month windows, a two-sample t-test record is stored with the test
statistic, p-value and the 0.05-threshold boolean; siblings with fewer monthly
observations yield no record (and no error, the function being total). -/
theorem c4_significance_tests_six_month_window (ttest : List ℚ → List ℚ → ℚ × ℚ)
    (df : List Txn) (sov_by_launch : List (Nat × SOVRecord)) (pid : Nat)
    (rec : SOVRecord) (hrec : (pid, rec) ∈ sov_by_launch)
    (target : CannEntry) (htarget : target ∈ rec.cannibalized_products)
    (hpre : 2 ≤ (monthly_series df target.product_id
        (rec.launch_date.addMonths (-6)) rec.launch_date).length)
    (hpost : 2 ≤ (monthly_series df target.product_id
        rec.launch_date (rec.launch_date.addMonths 6)).length) :
    ∃ tests, (pid, tests) ∈ perform_significance_tests ttest df sov_by_launch
      ∧ { target_product_id := target.product_id
          revenue_loss := target.revenue_loss
          pct_change := target.pct_change
          t_statistic := (ttest
            (monthly_series df target.product_id
              (rec.launch_date.addMonths (-6)) rec.launch_date)
            (monthly_series df target.product_id
              rec.launch_date (rec.launch_date.addMonths 6))).1
          p_value := (ttest
            (monthly_series df target.product_id
              (rec.launch_date.addMonths (-6)) rec.launch_date)
            (monthly_series df target.product_id
              rec.launch_date (rec.launch_date.addMonths 6))).2
          is_significant := decide ((ttest
            (monthly_series df target.product_id
              (rec.launch_date.addMonths (-6)) rec.launch_date)
            (monthly_series df target.product_id
              rec.launch_date (rec.launch_date.addMonths 6))).2 < 1/20) } ∈ tests := by
  refine ⟨_, List.mem_map.mpr ⟨(pid, rec), hrec, rfl⟩, ?_⟩
  simp only
  apply List.mem_filterMap.mpr
  refine ⟨target, htarget, ?_⟩
  rw [if_pos ⟨by omega, by omega⟩]

/-- Counterexample to C4 as stated: running the SOV analysis with
`window_months = 12`, sibling product 2 is cannibalized (loss 110) and has 2
monthly observations in each of the 12-month pre/post windows around the
launch (months [88,100) and [100,112)), yet the significance-testing pass
records **no** test for it — it filters on the hardcoded 6-month windows,
where product 2 has no observations at all. -/
theorem c4_counterexample :
    ({ product_id := 2, revenue_loss := 110, pct_change := -55 } : CannEntry)
        ∈ (analyze_sov_for_launch 12 cDf wLaunch).cannibalized_products
      ∧ 2 ≤ (monthly_series cDf 2 { month := 88, day := 1 } { month := 100, day := 1 }).length
      ∧ 2 ≤ (monthly_series cDf 2 { month := 100, day := 1 } { month := 112, day := 1 }).length
      ∧ perform_significance_tests wT cDf cSov = [(1, [])] := by
  refine ⟨?_, ?_, ?_, ?_⟩
  · norm_num [analyze_sov_for_launch, cannibalizedProducts, cannEntry, productIds,
      groupRevenue, revenueSum, sibling_txns, pre_window_txns, post_window_txns,
      dle, dlt, Date.addMonths, cDf, wLaunch, List.dedup, List.filterMap_cons,
      List.filterMap_nil]
  · norm_num [monthly_series, monthlyRevenue, revenueSum, insSortBy, insertOrdered,
      List.dedup, dle, dlt, cDf]
  · norm_num [monthly_series, monthlyRevenue, revenueSum, insSortBy, insertOrdered,
      List.dedup, dle, dlt, cDf]
  · norm_num [perform_significance_tests, cSov, analyze_sov_by_launch,
      analyze_sov_for_launch, cannibalizedProducts, cannEntry, productIds, groupRevenue,
      revenueSum, unitsSum, sibling_txns, pre_window_txns, post_window_txns,
      monthly_series, monthlyRevenue, insSortBy, insertOrdered, dle, dlt,
      Date.addMonths, cDf, wLaunch, wT, List.dedup, List.filterMap_cons,
      List.filterMap_nil]

/-- Witness for the amended C4: in the concrete 6-month-window table, sibling
product 2 has 2 monthly observations on each side, and a t-test record with
the stubbed statistic (2), p-value (1/100) and significance flag `true`
(1/100 < 0.05) is stored for launch 1. -/
theorem c4_witness :
    ∃ tests, (1, tests) ∈ perform_significance_tests wT wDf wSov
      ∧ { target_product_id := 2
          revenue_loss := 100
          pct_change := -50
          t_statistic := 2
          p_value := 1/100
          is_significant := true } ∈ tests := by
  have hrec : ((1 : Nat), analyze_sov_for_launch 6 wDf wLaunch) ∈ wSov :=
    List.mem_singleton.mpr rfl
  have htarget : ({ product_id := 2, revenue_loss := 100, pct_change := -50 } : CannEntry)
      ∈ (analyze_sov_for_launch 6 wDf wLaunch).cannibalized_products := by
    norm_num [analyze_sov_for_launch, cannibalizedProducts, cannEntry, productIds,
      groupRevenue, revenueSum, sibling_txns, pre_window_txns, post_window_txns,
      dle, dlt, Date.addMonths, wDf, wLaunch, List.dedup, List.filterMap_cons,
      List.filterMap_nil]
  have hld : (analyze_sov_for_launch 6 wDf wLaunch).launch_date
      = { month := 100, day := 1 } := rfl
  have hpre : 2 ≤ (monthly_series wDf 2
      ((analyze_sov_for_launch 6 wDf wLaunch).launch_date.addMonths (-6))
      (analyze_sov_for_launch 6 wDf wLaunch).launch_date).length := by
    rw [hld]
    norm_num [monthly_series, monthlyRevenue, revenueSum, insSortBy, insertOrdered,
      List.dedup, dle, dlt, Date.addMonths, wDf]
  have hpost : 2 ≤ (monthly_series wDf 2
      (analyze_sov_for_launch 6 wDf wLaunch).launch_date
      ((analyze_sov_for_launch 6 wDf wLaunch).launch_date.addMonths 6)).length := by
    rw [hld]
    norm_num [monthly_series, monthlyRevenue, revenueSum, insSortBy, insertOrdered,
      List.dedup, dle, dlt, Date.addMonths, wDf]
  obtain ⟨tests, hmem, hin⟩ := c4_significance_tests_six_month_window wT wDf wSov 1
    (analyze_sov_for_launch 6 wDf wLaunch) hrec
    { product_id := 2, revenue_loss := 100, pct_change := -50 } htarget hpre hpost
  refine ⟨tests, hmem, ?_⟩
  have heq : ({ target_product_id := 2
                revenue_loss := 100
                pct_change := -50
                t_statistic := 2
                p_value := 1/100
                is_significant := true } : SigTest)
      = { target_product_id := 2
          revenue_loss := 100
          pct_change := -50
          t_statistic := (wT (monthly_series wDf 2
              ((analyze_sov_for_launch 6 wDf wLaunch).launch_date.addMonths (-6))
              (analyze_sov_for_launch 6 wDf wLaunch).launch_date)
            (monthly_series wDf 2 (analyze_sov_for_launch 6 wDf wLaunch).launch_date
              ((analyze_sov_for_launch 6 wDf wLaunch).launch_date.addMonths 6))).1
          p_value := (wT (monthly_series wDf 2
              ((analyze_sov_for_launch 6 wDf wLaunch).launch_date.addMonths (-6))
              (analyze_sov_for_launch 6 wDf wLaunch).launch_date)
            (monthly_series wDf 2 (analyze_sov_for_launch 6 wDf wLaunch).launch_date
              ((analyze_sov_for_launch 6 wDf wLaunch).launch_date.addMonths 6))).2
          is_significant := decide ((wT (monthly_series wDf 2
              ((analyze_sov_for_launch 6 wDf wLaunch).launch_date.addMonths (-6))
              (analyze_sov_for_launch 6 wDf wLaunch).launch_date)
            (monthly_series wDf 2 (analyze_sov_for_launch 6 wDf wLaunch).launch_date
              ((analyze_sov_for_launch 6 wDf wLaunch).launch_date.addMonths 6))).2
            < 1/20) } := by
    simp only [wT, SigTest.mk.injEq]
    norm_num
  rw [heq]
  exact hin

/-- Claim C7: every category row of the portfolio aggregation first sums
`new_product_revenue` and `cannibalized_revenue` over all launches of that
category and only then computes `net_impact` and `net_impact_pct` from the
sums, so the category `net_impact` equals the sum of the constituent
per-launch `new_product_revenue − cannibalized_revenue` values; the same
summation-then-ratio rule holds for every brand row.  (A launch with no SOV
record contributes 0 to both totals, mirroring the membership guard of the
source; in the pipeline every launch has one.) -/
theorem c7_aggregation_sums_then_ratio (new_launches : List Launch)
    (sov_by_launch : List (Nat × SOVRecord)) :
    (∀ cat_rows row,
        calculate_category_impact new_launches sov_by_launch = Except.ok cat_rows →
        row ∈ cat_rows →
          row.total_new_revenue
              = ((new_launches.filter (fun l => l.ptype == row.category)).map
                  (sov_new_revenue sov_by_launch)).sum
            ∧ row.total_lost_revenue
              = ((new_launches.filter (fun l => l.ptype == row.category)).map
                  (sov_cannibalized sov_by_launch)).sum
            ∧ row.net_impact
              = ((new_launches.filter (fun l => l.ptype == row.category)).map
                  (fun l => sov_new_revenue sov_by_launch l
                    - sov_cannibalized sov_by_launch l)).sum
            ∧ row.net_impact_pct
              = (if 0 < row.total_new_revenue then
                  row.net_impact / row.total_new_revenue * 100 else 0))
      ∧ (∀ brand_rows row,
          calculate_brand_impact new_launches sov_by_launch = Except.ok brand_rows →
          row ∈ brand_rows →
            row.total_new_revenue
                = ((new_launches.filter (fun l => l.brand == row.brand)).map
                    (sov_new_revenue sov_by_launch)).sum
              ∧ row.total_lost_revenue
                = ((new_launches.filter (fun l => l.brand == row.brand)).map
                    (sov_cannibalized sov_by_launch)).sum
              ∧ row.net_impact
                = ((new_launches.filter (fun l => l.brand == row.brand)).map
                    (fun l => sov_new_revenue sov_by_launch l
                      - sov_cannibalized sov_by_launch l)).sum
              ∧ row.net_impact_pct
                = (if 0 < row.total_new_revenue then
                    row.net_impact / row.total_new_revenue * 100 else 0)) := by
  constructor
  · intro cat_rows row hrows hrow
    simp only [calculate_category_impact] at hrows
    split at hrows
    · cases hrows
    · injection hrows with h
      subst h
      rw [mem_insSortBy] at hrow
      simp only [category_impact_rows, sovTotals_eq] at hrow
      rcases List.mem_map.mp hrow with ⟨category, -, rfl⟩
      refine ⟨by simp, by simp, ?_, by simp⟩
      simp [sum_map_sub]
  · intro brand_rows row hrows hrow
    simp only [calculate_brand_impact] at hrows
    split at hrows
    · cases hrows
    · injection hrows with h
      subst h
      rw [mem_insSortBy] at hrow
      simp only [brand_impact_rows, sovTotals_eq] at hrow
      rcases List.mem_map.mp hrow with ⟨brand, -, rfl⟩
      refine ⟨by simp, by simp, ?_, by simp⟩
      simp [sum_map_sub]

/-- Witness for C7: the single-launch concrete table aggregates to one
category row (category 0) with totals 200/100, net impact 100 = the sum of the
per-launch differences. -/
theorem c7_witness :
    calculate_category_impact [wLaunch] wSov
        = Except.ok
          [{ category := 0
             num_launches := 1
             total_new_revenue := 200
             total_lost_revenue := 100
             net_impact := 100
             net_impact_pct := 50 }]
      ∧ (100 : ℚ)
        = (([wLaunch].filter (fun l => l.ptype == 0)).map
            (fun l => sov_new_revenue wSov l - sov_cannibalized wSov l)).sum := by
  have h : calculate_category_impact [wLaunch] wSov
      = Except.ok
        [{ category := 0
           num_launches := 1
           total_new_revenue := 200
           total_lost_revenue := 100
           net_impact := 100
           net_impact_pct := 50 }] := by
    norm_num [calculate_category_impact, category_impact_rows, sovTotals, sovFind,
      wSov, analyze_sov_by_launch, analyze_sov_for_launch, cannibalizedProducts,
      cannEntry, productIds, groupRevenue, revenueSum, unitsSum, sibling_txns,
      pre_window_txns, post_window_txns, dle, dlt, Date.addMonths, wDf, wLaunch,
      List.dedup, List.filterMap_cons, List.filterMap_nil, insSortBy, insertOrdered,
      List.find?]
  refine ⟨h, ?_⟩
  exact ((c7_aggregation_sums_then_ratio [wLaunch] wSov).1 _ _ h
    (List.mem_singleton.mpr rfl)).2.2.1

/-- Claim C8: for finite positive MAPE inputs, the ensembler's inverse-MAPE
weights `1/(MAPE+0.001)` are positive, normalize to sum exactly 1, and the
weighted ensemble is elementwise the corresponding convex combination of the
two models' test forecasts. -/
theorem c8_weighted_ensemble_convex (sarima_results prophet_results : ModelResult)
    (test : List ℚ) (hs : 0 < sarima_results.mape) (hp : 0 < prophet_results.mape) :
    (1 / (sarima_results.mape + 1/1000))
          / (1 / (sarima_results.mape + 1/1000) + 1 / (prophet_results.mape + 1/1000))
        + (1 / (prophet_results.mape + 1/1000))
          / (1 / (sarima_results.mape + 1/1000) + 1 / (prophet_results.mape + 1/1000))
        = 1
      ∧ 0 < (1 / (sarima_results.mape + 1/1000))
          / (1 / (sarima_results.mape + 1/1000) + 1 / (prophet_results.mape + 1/1000))
      ∧ 0 < (1 / (prophet_results.mape + 1/1000))
          / (1 / (sarima_results.mape + 1/1000) + 1 / (prophet_results.mape + 1/1000))
      ∧ (create_ensemble_core sarima_results prophet_results test).weighted_ensemble
        = List.zipWith
            (fun a b =>
              ((1 / (sarima_results.mape + 1/1000))
                  / (1 / (sarima_results.mape + 1/1000)
                    + 1 / (prophet_results.mape + 1/1000))) * a
                + ((1 / (prophet_results.mape + 1/1000))
                  / (1 / (sarima_results.mape + 1/1000)
                    + 1 / (prophet_results.mape + 1/1000))) * b)
            sarima_results.forecast prophet_results.forecast := by
  have hsw : 0 < 1 / (sarima_results.mape + 1/1000) := by positivity
  have hpw : 0 < 1 / (prophet_results.mape + 1/1000) := by positivity
  have htw : 0 < 1 / (sarima_results.mape + 1/1000) + 1 / (prophet_results.mape + 1/1000) :=
    by positivity
  refine ⟨?_, div_pos hsw htw, div_pos hpw htw, ?_⟩
  · rw [div_add_div_same]
    exact div_self (ne_of_gt htw)
  · simp only [create_ensemble_core]
    exact zipWith_ext _ _ (fun a b => by ring) _ _

/-- Witness for C8: with MAPEs 1 and 3, both positive, the normalized weights
sum to 1. -/
theorem c8_witness :
    (0 : ℚ) < ({ forecast := [1, 2], mape := 1 } : ModelResult).mape
      ∧ (0 : ℚ) < ({ forecast := [3, 4], mape := 3 } : ModelResult).mape
      ∧ (1 / ((1:ℚ) + 1/1000)) / (1 / ((1:ℚ) + 1/1000) + 1 / ((3:ℚ) + 1/1000))
          + (1 / ((3:ℚ) + 1/1000)) / (1 / ((1:ℚ) + 1/1000) + 1 / ((3:ℚ) + 1/1000))
        = 1 := by
  refine ⟨by norm_num, by norm_num, ?_⟩
  exact (c8_weighted_ensemble_convex { forecast := [1, 2], mape := 1 }
    { forecast := [3, 4], mape := 3 } [5, 6] (by norm_num) (by norm_num)).1
